import Mathlib

/-!
Verification of the depscope dependency-health scoring engine.

The JavaScript sources are shallowly embedded here:
* `src/lib/score.js` — `calculateScore`, `calculateGrade`, `calculateProjectScore`
* `src/lib/npm-api.js` — the trend computation of `getDownloadTrend`
* `src/index.js` — `analyzePackage`, `analyzeProject` (network fetches and the
  four signal extractors are abstracted as an explicit environment record,
  since they are I/O; the orchestration logic itself is embedded faithfully)

JS objects with possibly-absent fields are embedded as structures with
`Option`-valued fields; a JS value that is `undefined`/missing is `none`.
JS `x || 0` on a numeric field is `Option.getD 0` (both the missing field and
the value `0` yield `0`). JS strings are `String`; status/trend/severity are
plain strings in the source, so they stay strings here.
-/

namespace DepScope

set_option maxRecDepth 8000

/-- JS `daysSincePublish` is a number that may be `Infinity`. -/
inductive JsDays where
  | days (n : Int)
  | infinity
deriving DecidableEq, Repr

/-- Maintenance signal record `{ lastPublish, daysSincePublish, status }`. -/
structure Maintenance where
  lastPublish : Option String
  daysSincePublish : Option JsDays
  status : Option String
deriving DecidableEq, Repr

/-- Popularity signal record `{ weeklyDownloads, trend, trendPercent }`. -/
structure Popularity where
  weeklyDownloads : Option Nat
  trend : Option String
  trendPercent : Option Rat
deriving DecidableEq, Repr

/-- Size signal record `{ unpackedSize, unpackedSizeHuman }`. -/
structure Size where
  unpackedSize : Option Nat
  unpackedSizeHuman : Option String
deriving DecidableEq, Repr

/-- Security signal record `{ vulnerabilities, severity }`. -/
structure Security where
  vulnerabilities : Option Nat
  severity : Option String
deriving DecidableEq, Repr

/-- The part of the analysis-result object read by `calculateScore`
(`src/lib/score.js` reads only these four sub-records; the other fields of the
JS object — name, version, … — are never inspected by the scorer). -/
structure AnalysisResult where
  maintenance : Option Maintenance
  popularity : Option Popularity
  size : Option Size
  security : Option Security
deriving DecidableEq, Repr

/-- Contribution of the `if (analysisResult.maintenance)` block of
`calculateScore`: `active` → 30, `stale` → 15, anything else → 0;
a missing sub-record contributes 0. -/
def maintenancePoints : Option Maintenance → Nat
  | none => 0
  | some m =>
    if m.status = some "active" then 30
    else if m.status = some "stale" then 15
    else 0

/-- Contribution of the popularity block of `calculateScore`:
`const dl = popularity.weeklyDownloads || 0` followed by the strict-`>`
band chain. -/
def popularityPoints : Option Popularity → Nat
  | none => 0
  | some p =>
    let dl := p.weeklyDownloads.getD 0
    if dl > 1000000 then 20
    else if dl > 100000 then 15
    else if dl > 10000 then 10
    else if dl > 1000 then 5
    else 0

/-- Contribution of the size block of `calculateScore`:
`const bytes = size.unpackedSize || 0`; `bytes === 0` (unknown) gets partial
credit 8, then the strict-`<` 1024-based band chain. -/
def sizePoints : Option Size → Nat
  | none => 0
  | some s =>
    let bytes := s.unpackedSize.getD 0
    if bytes = 0 then 8
    else if bytes < 100 * 1024 then 15
    else if bytes < 500 * 1024 then 12
    else if bytes < 1024 * 1024 then 8
    else if bytes < 5 * 1024 * 1024 then 4
    else 0

/-- Contribution of the security block of `calculateScore`:
`none` → 25, `low` → 15, `moderate` → 8, `high` → 2, anything else
(including `critical`) → 0; a missing sub-record contributes 0. -/
def securityPoints : Option Security → Nat
  | none => 0
  | some s =>
    if s.severity = some "none" then 25
    else if s.severity = some "low" then 15
    else if s.severity = some "moderate" then 8
    else if s.severity = some "high" then 2
    else 0

/-- Contribution of the trend block of `calculateScore`; like the source it is
guarded by `if (analysisResult.popularity)`, so a missing popularity record
contributes 0. -/
def trendPoints : Option Popularity → Nat
  | none => 0
  | some p =>
    if p.trend = some "growing" then 10
    else if p.trend = some "stable" then 7
    else if p.trend = some "declining" then 2
    else 0

/-- `calculateScore` of `src/lib/score.js`. The source accumulates
`score += …` across five guarded blocks and finally returns
`Math.max(0, Math.min(100, score))`; each block is factored out above as the
points it adds. The accumulator is a non-negative integer throughout. -/
def calculateScore (analysisResult : AnalysisResult) : Nat :=
  max 0 (min 100
    (maintenancePoints analysisResult.maintenance
      + popularityPoints analysisResult.popularity
      + sizePoints analysisResult.size
      + securityPoints analysisResult.security
      + trendPoints analysisResult.popularity))

/-- `calculateGrade` of `src/lib/score.js`. Scores are JS numbers; the
callers pass integers, embedded as `Int` so that out-of-range (negative)
inputs are representable. -/
def calculateGrade (score : Int) : String :=
  if score ≥ 80 then "A"
  else if score ≥ 60 then "B"
  else if score ≥ 40 then "C"
  else if score ≥ 20 then "D"
  else "F"

/-! ### Spec-level scoring table

For the refinement claim about `calculateScore`, the five-bucket table of the
specification (§4.1) is written down separately, over the spec's enum-typed
data model, and compared with the embedded source function. -/

/-- Spec enum `{active, stale, abandoned}`. -/
inductive MaintStatus where
  | active
  | stale
  | abandoned
deriving DecidableEq, Repr

/-- Spec enum `{growing, stable, declining}`. -/
inductive TrendDir where
  | growing
  | stable
  | declining
deriving DecidableEq, Repr

/-- Spec enum `{none, low, moderate, high, critical}`. -/
inductive Severity where
  | none
  | low
  | moderate
  | high
  | critical
deriving DecidableEq, Repr

/-- Spec-level maintenance signal (only the field the scorer reads). -/
structure SpecMaintenance where
  status : MaintStatus
deriving DecidableEq, Repr

/-- Spec-level popularity signal (the fields the scorer reads). -/
structure SpecPopularity where
  weeklyDownloads : Nat
  trend : TrendDir
deriving DecidableEq, Repr

/-- Spec-level size signal; `0` encodes "unknown". -/
structure SpecSize where
  unpackedSizeBytes : Nat
deriving DecidableEq, Repr

/-- Spec-level security signal. -/
structure SpecSecurity where
  severity : Severity
deriving DecidableEq, Repr

/-- A spec-level signal bundle: any subset of the four sub-records present. -/
structure SpecBundle where
  maintenance : Option SpecMaintenance
  popularity : Option SpecPopularity
  size : Option SpecSize
  security : Option SpecSecurity
deriving DecidableEq, Repr

/-- Spec table, maintenance row: active 30, stale 15, abandoned 0, missing 0. -/
def specMaintPoints : Option SpecMaintenance → Nat
  | Option.none => 0
  | Option.some m =>
    match m.status with
    | .active => 30
    | .stale => 15
    | .abandoned => 0

/-- Spec table, popularity row, with strict `>` at each boundary. -/
def specPopPoints : Option SpecPopularity → Nat
  | Option.none => 0
  | Option.some p =>
    if p.weeklyDownloads > 1000000 then 20
    else if p.weeklyDownloads > 100000 then 15
    else if p.weeklyDownloads > 10000 then 10
    else if p.weeklyDownloads > 1000 then 5
    else 0

/-- Spec table, size row: 0 (unknown) 8 points, then strict `<` at the
1024-based boundaries, missing record 0. -/
def specSizePoints : Option SpecSize → Nat
  | Option.none => 0
  | Option.some s =>
    if s.unpackedSizeBytes = 0 then 8
    else if s.unpackedSizeBytes < 100 * 1024 then 15
    else if s.unpackedSizeBytes < 500 * 1024 then 12
    else if s.unpackedSizeBytes < 1024 * 1024 then 8
    else if s.unpackedSizeBytes < 5 * 1024 * 1024 then 4
    else 0

/-- Spec table, security row: none 25, low 15, moderate 8, high 2,
critical 0, missing 0. -/
def specSecPoints : Option SpecSecurity → Nat
  | Option.none => 0
  | Option.some s =>
    match s.severity with
    | .none => 25
    | .low => 15
    | .moderate => 8
    | .high => 2
    | .critical => 0

/-- Spec table, trend row: growing 10, stable 7, declining 2, missing
popularity record 0. -/
def specTrendPoints : Option SpecPopularity → Nat
  | Option.none => 0
  | Option.some p =>
    match p.trend with
    | .growing => 10
    | .stable => 7
    | .declining => 2

/-- Render a spec maintenance status as the string the JS code compares
against. -/
def MaintStatus.toJs : MaintStatus → String
  | .active => "active"
  | .stale => "stale"
  | .abandoned => "abandoned"

/-- Render a spec trend direction as the string the JS code compares
against. -/
def TrendDir.toJs : TrendDir → String
  | .growing => "growing"
  | .stable => "stable"
  | .declining => "declining"

/-- Render a spec severity as the string the JS code compares against. -/
def Severity.toJs : Severity → String
  | .none => "none"
  | .low => "low"
  | .moderate => "moderate"
  | .high => "high"
  | .critical => "critical"

/-- Interpret a spec-level bundle as the JS-shaped record consumed by
`calculateScore` (fields the scorer never reads are left absent). -/
def SpecBundle.toAnalysisResult (b : SpecBundle) : AnalysisResult where
  maintenance := b.maintenance.map fun m =>
    { lastPublish := Option.none, daysSincePublish := Option.none
      status := Option.some m.status.toJs }
  popularity := b.popularity.map fun p =>
    { weeklyDownloads := Option.some p.weeklyDownloads
      trend := Option.some p.trend.toJs, trendPercent := Option.none }
  size := b.size.map fun s =>
    { unpackedSize := Option.some s.unpackedSizeBytes
      unpackedSizeHuman := Option.none }
  security := b.security.map fun s =>
    { vulnerabilities := Option.none, severity := Option.some s.severity.toJs }

/-! ### Project aggregation -/

/-- JS `Math.round`: round half toward positive infinity, `⌊x + 1/2⌋`. -/
def jsRound (q : Rat) : Int := ⌊q + 1 / 2⌋

/-- The only field of a result record that `calculateProjectScore` reads.
`score` is `none` when the JS value is not a number, matching the
`typeof r.score === 'number' ? r.score : 0` guard. -/
structure ScoredResult where
  score : Option Int
deriving DecidableEq, Repr

/-- `calculateProjectScore` of `src/lib/score.js`. The source loops over both
arrays accumulating `weightedSum` and `totalWeight`; the loops' final
accumulator values are the list sums below (the `results &&
results.length > 0` guards only skip an empty loop, a no-op on lists).
Production entries weigh 1.0, dev entries 0.5; the result is
`Math.round(weightedSum / totalWeight)`, or 0 when `totalWeight === 0`. -/
def calculateProjectScore (results devResults : List ScoredResult) : Int :=
  let weightedSum : Rat :=
    (results.map fun r => ((r.score.getD 0 : Int) : Rat) * 1).sum
      + (devResults.map fun r => ((r.score.getD 0 : Int) : Rat) * (1 / 2)).sum
  let totalWeight : Rat :=
    (results.length : Rat) * 1 + (devResults.length : Rat) * (1 / 2)
  if totalWeight = 0 then 0 else jsRound (weightedSum / totalWeight)

/-- The project-score formula in the specification's own words (§4.3):
`round(Σ(score_i × weight_i) / Σ(weight_i))` with weight 1.0 per production
entry and 0.5 per dev entry, and 0 when both sequences are empty. Kept
separate from the source embedding for the refinement claim. -/
def specProjectScore (results devResults : List ScoredResult) : Int :=
  if results = [] ∧ devResults = [] then 0
  else
    jsRound
      (((results.map fun r => ((r.score.getD 0 : Int) : Rat) * 1).sum
          + (devResults.map fun r => ((r.score.getD 0 : Int) : Rat) * (1 / 2)).sum)
        / ((results.length : Rat) * 1 + (devResults.length : Rat) * (1 / 2)))

/-! ### Download trend (`getDownloadTrend` in `src/lib/npm-api.js`)

The network fetch and the `data.downloads` null/shape checks are the I/O
boundary; the embedded function takes the list of daily download counts and
performs the slicing, totalling and classification of the source. -/

/-- JS `Math.round(x * 10) / 10`: round to one decimal place. -/
def round1 (q : Rat) : Rat := (jsRound (q * 10) : Rat) / 10

/-- Result record of `getDownloadTrend`. -/
structure TrendResult where
  recent : Nat
  sixMonthsAgo : Nat
  trend : String
  percent : Rat
deriving DecidableEq, Repr

/-- `getDownloadTrend` of `src/lib/npm-api.js` on the daily download counts.
`slice(-7)` is `drop (length - 7)` (truncated subtraction matches JS slice
semantics for short arrays); `Math.max(0, length - 182 - 7)` is the truncated
`length - 182 - 7`; `slice(o, o + 7)` is `drop o` then `take 7`. -/
def getDownloadTrend (downloads : List Nat) : TrendResult :=
  let recentDays := downloads.drop (downloads.length - 7)
  let recent := recentDays.sum
  let sixMonthOffset := downloads.length - 182 - 7
  let oldDays := (downloads.drop sixMonthOffset).take 7
  let sixMonthsAgo := oldDays.sum
  if sixMonthsAgo > 0 then
    let percent := round1
      ((((recent : Int) - (sixMonthsAgo : Int) : Int) : Rat)
        / (sixMonthsAgo : Rat) * 100)
    let trend :=
      if percent > 10 then "growing"
      else if percent < -10 then "declining"
      else "stable"
    ⟨recent, sixMonthsAgo, trend, percent⟩
  else if recent > 0 then ⟨recent, sixMonthsAgo, "growing", 100⟩
  else ⟨recent, sixMonthsAgo, "stable", 0⟩

/-! ### Orchestrator (`analyzePackage`, `analyzeProject` in `src/index.js`)

Network acquisition and the four signal extractors are I/O; they are
abstracted as an explicit environment record holding what the corresponding
awaited calls produced, and the orchestration logic (not-found path, settle
semantics, defaults, fan-out, ordering) is embedded faithfully. -/

/-- The `dist-tags` object of registry metadata. -/
structure DistTags where
  latest : Option String
deriving DecidableEq, Repr

/-- The part of the registry metadata that `analyzePackage` itself reads
(`packageInfo['dist-tags'].latest`); everything else is consumed only by the
signal extractors, which are abstracted as environment outcomes. -/
structure PackageInfo where
  distTags : Option DistTags
deriving DecidableEq, Repr

/-- An alternative suggestion `{ name, reason }` from the curated database. -/
structure AlternativeSuggestion where
  name : String
  reason : String
deriving DecidableEq, Repr

/-- Outcome of one promise as observed through `Promise.allSettled`. A
rejection carries `reason.message` when the reason was truthy, otherwise
`none`. -/
inductive Settled (α : Type) where
  | fulfilled (value : α)
  | rejected (message : Option String)
deriving DecidableEq, Repr

/-- The I/O environment of one `analyzePackage` call: the value
`npmApi.getPackageInfo` resolved with (`none` on not-found or network
error — `cachedFetch` never throws), the settled outcomes of the four
concurrently-run extractors, and the static alternatives database behind
`getAlternative` (a bundled JSON data file). The `noCache` option only
clears the HTTP response cache and does not change which values the
environment hands back, so it is not modelled. -/
structure FetchEnv where
  packageInfo : Option PackageInfo
  maintenanceResult : Settled Maintenance
  popularityResult : Settled Popularity
  sizeResult : Settled Size
  securityResult : Settled Security
  alternative : String → Option AlternativeSuggestion

/-- The per-dependency record produced by `analyzePackage` and
`analyzeProject`. Fields that a code path leaves absent are `Option`s. -/
structure DependencyResult where
  name : String
  version : String
  latestVersion : Option String
  maintenance : Option Maintenance
  popularity : Option Popularity
  size : Option Size
  security : Option Security
  alternative : Option AlternativeSuggestion
  score : Nat
  grade : String
  error : Option String
deriving DecidableEq, Repr

/-- `analyzePackage` of `src/index.js`. The not-found branch synthesizes the
fixed worst-case record; otherwise each extractor that rejected falls back to
its literal default object from the source, the four signals are scored, and
the grade is derived from the score. `(packageInfo['dist-tags'] &&
packageInfo['dist-tags'].latest) || 'unknown'` reads `'unknown'` for a
missing `dist-tags`, a missing `latest`, or an empty (falsy) `latest`. -/
def analyzePackage (name version : String) (env : FetchEnv) :
    DependencyResult :=
  match env.packageInfo with
  | Option.none =>
    { name := name, version := version
      latestVersion := Option.some "unknown"
      maintenance := Option.some
        ⟨Option.some "unknown", Option.some JsDays.infinity,
         Option.some "abandoned"⟩
      popularity := Option.some
        ⟨Option.some 0, Option.some "stable", Option.some 0⟩
      size := Option.some ⟨Option.some 0, Option.some "unknown"⟩
      security := Option.some ⟨Option.some 0, Option.some "none"⟩
      alternative := env.alternative name
      score := 0
      grade := "F"
      error := Option.some "Package not found or network error" }
  | Option.some packageInfo =>
    let latestVersion :=
      match packageInfo.distTags with
      | Option.some dt =>
        match dt.latest with
        | Option.some l => if l = "" then "unknown" else l
        | Option.none => "unknown"
      | Option.none => "unknown"
    let maintenance :=
      match env.maintenanceResult with
      | .fulfilled v => v
      | .rejected _ =>
        ⟨Option.some "unknown", Option.some JsDays.infinity,
         Option.some "abandoned"⟩
    let popularity :=
      match env.popularityResult with
      | .fulfilled v => v
      | .rejected _ => ⟨Option.some 0, Option.some "stable", Option.some 0⟩
    let size :=
      match env.sizeResult with
      | .fulfilled v => v
      | .rejected _ => ⟨Option.some 0, Option.some "unknown"⟩
    let security :=
      match env.securityResult with
      | .fulfilled v => v
      | .rejected _ => ⟨Option.some 0, Option.some "none"⟩
    let alternative := env.alternative name
    let score := calculateScore
      ⟨Option.some maintenance, Option.some popularity,
       Option.some size, Option.some security⟩
    { name := name, version := version
      latestVersion := Option.some latestVersion
      maintenance := Option.some maintenance
      popularity := Option.some popularity
      size := Option.some size
      security := Option.some security
      alternative := alternative
      score := score
      grade := calculateGrade (score : Int)
      error := Option.none }

/-- The manifest dependency maps, as ordered name/constraint pairs
(`Object.entries` preserves insertion order for string keys). -/
structure Manifest where
  dependencies : List (String × String)
  devDependencies : List (String × String)

/-- Options of `analyzeProject`; `useCache` only affects the HTTP response
cache and is not modelled. -/
structure AnalyzeOptions where
  includeDev : Bool

/-- The I/O environment of one `analyzeProject` run: the per-package fetch
environment, and the outcome of each `analyzePackage` promise as seen by
`Promise.allSettled` — `none` means it fulfilled (with the `analyzePackage`
result), `some msg` models a rejection whose `reason.message` is `msg`
(`none` inside models a falsy `reason`). -/
structure ProjectEnv where
  fetchFor : String → String → FetchEnv
  outcome : String → String → Option (Option String)

/-- What `analyzeProject` returns. -/
structure ProjectResult where
  dependencies : List DependencyResult
  devDependencies : List DependencyResult
  projectScore : Int
  projectGrade : String

/-- One entry of the `analyzeProject` fan-out: the
`([name, version]) => analyzePackage(name, version, opts)` promise combined
with the `Promise.allSettled` mapper that turns a rejection into the
`{name, version, error, score: 0, grade: 'F'}` stub. -/
def analyzeProjectEntry (env : ProjectEnv) (e : String × String) :
    DependencyResult :=
  match env.outcome e.1 e.2 with
  | Option.none => analyzePackage e.1 e.2 (env.fetchFor e.1 e.2)
  | Option.some msg =>
    { name := e.1, version := e.2
      latestVersion := Option.none, maintenance := Option.none
      popularity := Option.none, size := Option.none
      security := Option.none, alternative := Option.none
      score := 0, grade := "F"
      error := Option.some (msg.getD "Analysis failed") }

/-- `analyzeProject` of `src/index.js`: settle every production entry in
declaration order, the dev entries only when `includeDev`, then aggregate
with `calculateProjectScore` and grade the project. The `map` keeps the
results positionally aligned with the manifest entries, exactly as
`Promise.allSettled` keeps its result array aligned with its input array. -/
def analyzeProject (pkg : Manifest) (options : AnalyzeOptions)
    (env : ProjectEnv) : ProjectResult :=
  let includeDev := options.includeDev
  let deps := pkg.dependencies
  let devDeps := if includeDev then pkg.devDependencies else []
  let dependencies := deps.map (analyzeProjectEntry env)
  let devDependencies :=
    if includeDev then devDeps.map (analyzeProjectEntry env) else []
  let projectScore := calculateProjectScore
    (dependencies.map fun d => ⟨Option.some (d.score : Int)⟩)
    (devDependencies.map fun d => ⟨Option.some (d.score : Int)⟩)
  { dependencies := dependencies
    devDependencies := devDependencies
    projectScore := projectScore
    projectGrade := calculateGrade projectScore }

/-- A fetch environment in which the registry lookup failed. -/
def envNotFound : FetchEnv where
  packageInfo := Option.none
  maintenanceResult := Settled.rejected Option.none
  popularityResult := Settled.rejected Option.none
  sizeResult := Settled.rejected Option.none
  securityResult := Settled.rejected Option.none
  alternative := fun _ => Option.none

/-- Maintenance signal of the security-failure scenario: active package. -/
def mSecFail : Maintenance :=
  ⟨Option.some "2024-01-01", Option.some (JsDays.days 10),
   Option.some "active"⟩

/-- Popularity signal of the security-failure scenario: 2M weekly, growing. -/
def pSecFail : Popularity :=
  ⟨Option.some 2000000, Option.some "growing", Option.some 25⟩

/-- Size signal of the security-failure scenario: 50,000 bytes. -/
def szSecFail : Size := ⟨Option.some 50000, Option.some "49 KB"⟩

/-- A fetch environment where the package was found and maintenance,
popularity and size succeeded, but the security extractor rejected. -/
def envSecFail : FetchEnv where
  packageInfo := Option.some ⟨Option.some ⟨Option.some "4.21.0"⟩⟩
  maintenanceResult := Settled.fulfilled mSecFail
  popularityResult := Settled.fulfilled pSecFail
  sizeResult := Settled.fulfilled szSecFail
  securityResult := Settled.rejected (Option.some "audit failed")
  alternative := fun _ => Option.none

/-- A minimal concrete project environment for the C6 witness. -/
def envProjWitness : ProjectEnv where
  fetchFor := fun _ _ => envNotFound
  outcome := fun n _ => if n = "b" then Option.some Option.none else Option.none

/-! ### Bridge lemmas: code buckets agree with the spec table -/

lemma maintenancePoints_spec (b : SpecBundle) :
    maintenancePoints b.toAnalysisResult.maintenance
      = specMaintPoints b.maintenance := by
  rcases b with ⟨m, p, sz, sec⟩
  rcases m with _ | ⟨⟨st⟩⟩
  · rfl
  · cases st <;> rfl

lemma popularityPoints_spec (b : SpecBundle) :
    popularityPoints b.toAnalysisResult.popularity
      = specPopPoints b.popularity := by
  rcases b with ⟨m, p, sz, sec⟩
  rcases p with _ | ⟨w, t⟩
  · rfl
  · simp [SpecBundle.toAnalysisResult, popularityPoints, specPopPoints]

lemma sizePoints_spec (b : SpecBundle) :
    sizePoints b.toAnalysisResult.size = specSizePoints b.size := by
  rcases b with ⟨m, p, sz, sec⟩
  rcases sz with _ | ⟨bytes⟩
  · rfl
  · simp [SpecBundle.toAnalysisResult, sizePoints, specSizePoints]

lemma securityPoints_spec (b : SpecBundle) :
    securityPoints b.toAnalysisResult.security
      = specSecPoints b.security := by
  rcases b with ⟨m, p, sz, sec⟩
  rcases sec with _ | ⟨⟨sv⟩⟩
  · rfl
  · cases sv <;> rfl

lemma trendPoints_spec (b : SpecBundle) :
    trendPoints b.toAnalysisResult.popularity
      = specTrendPoints b.popularity := by
  rcases b with ⟨m, p, sz, sec⟩
  rcases p with _ | ⟨⟨w, t⟩⟩
  · rfl
  · cases t <;> rfl

lemma specMaintPoints_le (m : Option SpecMaintenance) :
    specMaintPoints m ≤ 30 := by
  rcases m with _ | ⟨⟨st⟩⟩
  · decide
  · cases st <;> decide

lemma specPopPoints_le (p : Option SpecPopularity) : specPopPoints p ≤ 20 := by
  rcases p with _ | ⟨w, t⟩
  · decide
  · simp only [specPopPoints]
    split_ifs <;> omega

lemma specSizePoints_le (s : Option SpecSize) : specSizePoints s ≤ 15 := by
  rcases s with _ | ⟨bytes⟩
  · decide
  · simp only [specSizePoints]
    split_ifs <;> omega

lemma specSecPoints_le (s : Option SpecSecurity) : specSecPoints s ≤ 25 := by
  rcases s with _ | ⟨⟨sv⟩⟩
  · decide
  · cases sv <;> decide

lemma specTrendPoints_le (p : Option SpecPopularity) :
    specTrendPoints p ≤ 10 := by
  rcases p with _ | ⟨⟨w, t⟩⟩
  · decide
  · cases t <;> norm_num [specTrendPoints]

lemma totalWeight_zero_iff (rs ds : List ScoredResult) :
    ((rs.length : Rat) * 1 + (ds.length : Rat) * (1 / 2) = 0)
      ↔ (rs = [] ∧ ds = []) := by
  have h1 : (0 : Rat) ≤ (rs.length : Rat) := Nat.cast_nonneg _
  have h2 : (0 : Rat) ≤ (ds.length : Rat) := Nat.cast_nonneg _
  constructor
  · intro h
    have hr : (rs.length : Rat) = 0 := by linarith
    have hd : (ds.length : Rat) = 0 := by linarith
    have hr' : rs.length = 0 := by exact_mod_cast hr
    have hd' : ds.length = 0 := by exact_mod_cast hd
    exact ⟨List.length_eq_zero.mp hr', List.length_eq_zero.mp hd'⟩
  · rintro ⟨rfl, rfl⟩
    simp

lemma weighted_map_sum_eq (l : List ScoredResult) (w : Rat) :
    (l.map fun r => ((r.score.getD 0 : Int) : Rat) * w).sum
      = (l.map fun r => ((r.score.getD 0 : Int) : Rat)).sum * w := by
  induction l with
  | nil => simp
  | cons a t ih => simp [ih, add_mul]

lemma plain_sum_bounds (l : List ScoredResult)
    (h : ∀ r ∈ l, ∃ s, r.score = Option.some s ∧ 0 ≤ s ∧ s ≤ 100) :
    0 ≤ (l.map fun r => ((r.score.getD 0 : Int) : Rat)).sum
      ∧ (l.map fun r => ((r.score.getD 0 : Int) : Rat)).sum
          ≤ 100 * l.length := by
  induction l with
  | nil => simp
  | cons a t ih =>
    obtain ⟨s, hs, hs0, hs1⟩ := h a (by simp)
    have ih2 := ih fun r hr => h r (by simp [hr])
    have ha0 : (0 : Rat) ≤ ((a.score.getD 0 : Int) : Rat) := by
      rw [hs]
      simp only [Option.getD_some]
      exact_mod_cast hs0
    have ha1 : ((a.score.getD 0 : Int) : Rat) ≤ 100 := by
      rw [hs]
      simp only [Option.getD_some]
      exact_mod_cast hs1
    simp only [List.map_cons, List.sum_cons, List.length_cons]
    push_cast
    constructor
    · linarith [ih2.1]
    · linarith [ih2.2]

lemma analyzePackage_fields (n v : String) (fe : FetchEnv) :
    (analyzePackage n v fe).name = n ∧ (analyzePackage n v fe).version = v := by
  rcases fe with ⟨pi, mr, pr, sr, secr, alt⟩
  cases pi <;> exact ⟨rfl, rfl⟩

lemma analyzeProjectEntry_fields (env : ProjectEnv) (e : String × String) :
    (analyzeProjectEntry env e).name = e.1
      ∧ (analyzeProjectEntry env e).version = e.2 := by
  unfold analyzeProjectEntry
  cases env.outcome e.1 e.2
  · exact analyzePackage_fields e.1 e.2 (env.fetchFor e.1 e.2)
  · exact ⟨rfl, rfl⟩

lemma entry_get_name (env : ProjectEnv) (o : Option (String × String)) :
    (o.map (analyzeProjectEntry env)).map DependencyResult.name
      = o.map Prod.fst := by
  cases o with
  | none => rfl
  | some e =>
    simp only [Option.map_some']
    exact congrArg Option.some (analyzeProjectEntry_fields env e).1

lemma entry_get_version (env : ProjectEnv) (o : Option (String × String)) :
    (o.map (analyzeProjectEntry env)).map DependencyResult.version
      = o.map Prod.snd := by
  cases o with
  | none => rfl
  | some e =>
    simp only [Option.map_some']
    exact congrArg Option.some (analyzeProjectEntry_fields env e).2

/-- C1: for every signal bundle, `calculateScore` equals the sum of the five
bucket contributions of the scoring table (maintenance 30/15/0, popularity
bands with strict `>` at 1,000,000 / 100,000 / 10,000 / 1,000, size bands with
strict `<` at the 1024-based boundaries and 8 points for unknown size,
security 25/15/8/2/0, trend 10/7/2); exactly 1,000,000 weekly downloads falls
in the 15-point band, exactly 102,400 bytes in the 12-point band, the stated
mixed bundle scores 52 and the stated worst bundle scores 2. -/
theorem C1_calculateScore_matches_spec_table :
    (∀ b : SpecBundle,
        calculateScore b.toAnalysisResult
          = specMaintPoints b.maintenance + specPopPoints b.popularity
            + specSizePoints b.size + specSecPoints b.security
            + specTrendPoints b.popularity)
      ∧ specPopPoints (Option.some ⟨1000000, TrendDir.stable⟩) = 15
      ∧ specSizePoints (Option.some ⟨102400⟩) = 12
      ∧ calculateScore (SpecBundle.toAnalysisResult
            ⟨Option.some ⟨MaintStatus.stale⟩,
             Option.some ⟨50000, TrendDir.stable⟩,
             Option.some ⟨200000⟩, Option.some ⟨Severity.moderate⟩⟩) = 52
      ∧ calculateScore (SpecBundle.toAnalysisResult
            ⟨Option.some ⟨MaintStatus.abandoned⟩,
             Option.some ⟨50, TrendDir.declining⟩,
             Option.some ⟨10000000⟩, Option.some ⟨Severity.critical⟩⟩) = 2 := by
  refine ⟨fun b => ?_, by decide, by decide, by decide, by decide⟩
  have h1 := specMaintPoints_le b.maintenance
  have h2 := specPopPoints_le b.popularity
  have h3 := specSizePoints_le b.size
  have h4 := specSecPoints_le b.security
  have h5 := specTrendPoints_le b.popularity
  simp only [calculateScore, maintenancePoints_spec, popularityPoints_spec,
    sizePoints_spec, securityPoints_spec, trendPoints_spec]
  omega

/-- C2: `calculateGrade` maps scores to letter grades with boundaries
inclusive on the lower bound — A on [80,100], B on [60,80), C on [40,60),
D on [20,40), F on [0,20) — and in particular grade(80)=A, grade(79)=B,
grade(60)=B, grade(59)=C, grade(40)=C, grade(39)=D, grade(20)=D,
grade(19)=F. -/
theorem C2_calculateGrade_bands :
    (∀ s : Int,
        (80 ≤ s → s ≤ 100 → calculateGrade s = "A")
        ∧ (60 ≤ s → s < 80 → calculateGrade s = "B")
        ∧ (40 ≤ s → s < 60 → calculateGrade s = "C")
        ∧ (20 ≤ s → s < 40 → calculateGrade s = "D")
        ∧ (0 ≤ s → s < 20 → calculateGrade s = "F"))
      ∧ calculateGrade 80 = "A" ∧ calculateGrade 79 = "B"
      ∧ calculateGrade 60 = "B" ∧ calculateGrade 59 = "C"
      ∧ calculateGrade 40 = "C" ∧ calculateGrade 39 = "D"
      ∧ calculateGrade 20 = "D" ∧ calculateGrade 19 = "F" := by
  refine ⟨fun s => ?_, by decide, by decide, by decide, by decide, by decide,
    by decide, by decide, by decide⟩
  refine ⟨fun h1 h2 => ?_, fun h1 h2 => ?_, fun h1 h2 => ?_, fun h1 h2 => ?_,
    fun h1 h2 => ?_⟩ <;>
    · simp only [calculateGrade]
      split_ifs <;> first | rfl | (exfalso; omega)

/-- C2 witness: the A band at 80 and the C band at 59, via the band
theorem. -/
theorem C2_calculateGrade_bands_witness :
    calculateGrade 80 = "A" ∧ calculateGrade 59 = "C" :=
  ⟨(C2_calculateGrade_bands.1 80).1 (by decide) (by decide),
   ((C2_calculateGrade_bands.1 59).2.2.1) (by decide) (by decide)⟩

/-- C7: `calculateScore` is total and deterministic; for every input record
(any subset of the four sub-records may be missing) it returns a natural
number at most 100 — hence an integer in [0,100] — and the empty bundle
scores 0, which grades to F. -/
theorem C7_calculateScore_total_bounded :
    (∀ r : AnalysisResult, calculateScore r ≤ 100)
      ∧ (∀ r r' : AnalysisResult, r = r' → calculateScore r = calculateScore r')
      ∧ calculateScore
          ⟨Option.none, Option.none, Option.none, Option.none⟩ = 0
      ∧ calculateGrade
          ((calculateScore
              ⟨Option.none, Option.none, Option.none, Option.none⟩ : Nat) : Int)
        = "F" := by
  refine ⟨fun r => ?_, fun r r' h => by rw [h], by decide, by decide⟩
  simp only [calculateScore]
  omega

/-- C7 witness: determinism instantiated at the empty bundle. -/
theorem C7_calculateScore_total_bounded_witness :
    calculateScore ⟨Option.none, Option.none, Option.none, Option.none⟩
      = calculateScore ⟨Option.none, Option.none, Option.none, Option.none⟩ :=
  C7_calculateScore_total_bounded.2.1 _ _ rfl

/-- C9: a present size sub-record whose `unpackedSize` is 0 or missing gets
the 8-point unknown-size partial credit, while a bundle with no size
sub-record at all gets 0 size points; in particular a bundle whose only
sub-record is an empty size record scores 8 and the empty bundle scores 0. -/
theorem C9_unknown_size_partial_credit :
    (∀ sz : Size,
        sz.unpackedSize = Option.none ∨ sz.unpackedSize = Option.some 0 →
        sizePoints (Option.some sz) = 8)
      ∧ sizePoints Option.none = 0
      ∧ calculateScore ⟨Option.none, Option.none,
          Option.some ⟨Option.none, Option.none⟩, Option.none⟩ = 8
      ∧ calculateScore
          ⟨Option.none, Option.none, Option.none, Option.none⟩ = 0 := by
  refine ⟨fun sz h => ?_, by decide, by decide, by decide⟩
  rcases sz with ⟨u, human⟩
  rcases h with h | h <;> (simp only at h; subst h; rfl)

/-- C9 witness: the empty size record gets 8 points. -/
theorem C9_unknown_size_partial_credit_witness :
    sizePoints (Option.some ⟨Option.none, Option.none⟩) = 8 :=
  C9_unknown_size_partial_credit.1 ⟨Option.none, Option.none⟩ (Or.inl rfl)

/-- C10: `calculateGrade` is total over all integers: every score above 100
still returns A, every negative score still returns F, and the result is
always one of the five letters. -/
theorem C10_calculateGrade_out_of_range :
    ∀ s : Int,
      (s > 100 → calculateGrade s = "A")
      ∧ (s < 0 → calculateGrade s = "F")
      ∧ (calculateGrade s = "A" ∨ calculateGrade s = "B"
          ∨ calculateGrade s = "C" ∨ calculateGrade s = "D"
          ∨ calculateGrade s = "F") := by
  intro s
  refine ⟨fun h => ?_, fun h => ?_, ?_⟩
  · simp only [calculateGrade]
    rw [if_pos (by omega)]
  · simp only [calculateGrade]
    split_ifs <;> first | rfl | (exfalso; omega)
  · simp only [calculateGrade]
    split_ifs <;> simp

/-- C10 witness: grade at 150 and at -5. -/
theorem C10_calculateGrade_out_of_range_witness :
    calculateGrade 150 = "A" ∧ calculateGrade (-5) = "F" :=
  ⟨(C10_calculateGrade_out_of_range 150).1 (by decide),
   (C10_calculateGrade_out_of_range (-5)).2.1 (by decide)⟩

/-- C3: `calculateProjectScore` equals the spec formula
`round(Σ score_i·w_i / Σ w_i)` with production weight 1.0 and dev weight 0.5,
returns 0 when both sequences are empty; the stated example gives 64, and
whenever every entry carries an integer score in [0,100] the result is an
integer in [0,100]. -/
theorem C3_calculateProjectScore_weighted_mean :
    (∀ rs ds : List ScoredResult,
        calculateProjectScore rs ds = specProjectScore rs ds)
      ∧ calculateProjectScore [] [] = 0
      ∧ calculateProjectScore
          [⟨Option.some 80⟩, ⟨Option.some 60⟩] [⟨Option.some 40⟩] = 64
      ∧ (∀ rs ds : List ScoredResult,
          (∀ r ∈ rs, ∃ s, r.score = Option.some s ∧ 0 ≤ s ∧ s ≤ 100) →
          (∀ r ∈ ds, ∃ s, r.score = Option.some s ∧ 0 ≤ s ∧ s ≤ 100) →
          0 ≤ calculateProjectScore rs ds
            ∧ calculateProjectScore rs ds ≤ 100) := by
  refine ⟨fun rs ds => ?_, by norm_num [calculateProjectScore],
    by norm_num [calculateProjectScore, jsRound], fun rs ds hrs hds => ?_⟩
  · simp only [calculateProjectScore, specProjectScore]
    exact if_congr (totalWeight_zero_iff rs ds) rfl rfl
  · have hb1 := plain_sum_bounds rs hrs
    have hb2 := plain_sum_bounds ds hds
    simp only [calculateProjectScore, weighted_map_sum_eq]
    set P1 := (rs.map fun r => ((r.score.getD 0 : Int) : Rat)).sum with hP1
    set P2 := (ds.map fun r => ((r.score.getD 0 : Int) : Rat)).sum with hP2
    set W : Rat := (rs.length : Rat) * 1 + (ds.length : Rat) * (1 / 2)
      with hW
    by_cases hw : W = 0
    · simp [hw]
    · have hWnonneg : (0 : Rat) ≤ W := by
        have h1 : (0 : Rat) ≤ (rs.length : Rat) := Nat.cast_nonneg _
        have h2 : (0 : Rat) ≤ (ds.length : Rat) := Nat.cast_nonneg _
        rw [hW]
        linarith
      have hWpos : (0 : Rat) < W := lt_of_le_of_ne hWnonneg (Ne.symm hw)
      have hS0 : (0 : Rat) ≤ P1 * 1 + P2 * (1 / 2) := by
        linarith [hb1.1, hb2.1]
      have hS1 : P1 * 1 + P2 * (1 / 2) ≤ 100 * W := by
        rw [hW]
        have := hb1.2
        have := hb2.2
        linarith
      have hq0 : (0 : Rat) ≤ (P1 * 1 + P2 * (1 / 2)) / W :=
        div_nonneg hS0 hWnonneg
      have hq1 : (P1 * 1 + P2 * (1 / 2)) / W ≤ 100 :=
        (div_le_iff₀ hWpos).mpr (by linarith)
      rw [if_neg hw]
      constructor
      · exact Int.le_floor.mpr (by push_cast; linarith)
      · have hlt : jsRound ((P1 * 1 + P2 * (1 / 2)) / W) < 101 := by
          simp only [jsRound]
          exact Int.floor_lt.mpr (by push_cast; linarith)
        omega

/-- C3 witness: the bounds clause instantiated at a one-element production
list. -/
theorem C3_calculateProjectScore_weighted_mean_witness :
    0 ≤ calculateProjectScore [⟨Option.some 80⟩] []
      ∧ calculateProjectScore [⟨Option.some 80⟩] [] ≤ 100 :=
  C3_calculateProjectScore_weighted_mean.2.2.2 [⟨Option.some 80⟩] []
    (by intro r hr
        simp only [List.mem_singleton] at hr
        exact ⟨80, by rw [hr], by decide, by decide⟩)
    (by intro r hr
        simp at hr)

/-- C8: for every downloads series, writing R for the recent-7-day total and
P for the prior-window total of the result: if P > 0 the percent is
(R − P)/P·100 rounded to one decimal and the trend is growing when
percent > 10, declining when percent < −10, stable otherwise; if P = 0 and
R > 0 the trend is growing with percent 100; if both are 0 the trend is
stable with percent 0. -/
theorem C8_getDownloadTrend_classification :
    ∀ (downloads : List Nat) (t : TrendResult),
      t = getDownloadTrend downloads →
      (t.sixMonthsAgo > 0 →
          t.percent = round1
              ((((t.recent : Int) - (t.sixMonthsAgo : Int) : Int) : Rat)
                / (t.sixMonthsAgo : Rat) * 100)
          ∧ t.trend = (if t.percent > 10 then "growing"
              else if t.percent < -10 then "declining" else "stable"))
      ∧ (t.sixMonthsAgo = 0 → t.recent > 0 →
          t.trend = "growing" ∧ t.percent = 100)
      ∧ (t.sixMonthsAgo = 0 → t.recent = 0 →
          t.trend = "stable" ∧ t.percent = 0) := by
  intro downloads t ht
  subst ht
  simp only [getDownloadTrend]
  set R := (downloads.drop (downloads.length - 7)).sum with hR
  set P := ((downloads.drop (downloads.length - 182 - 7)).take 7).sum with hP
  by_cases h1 : P > 0
  · rw [if_pos h1]
    exact ⟨fun _ => ⟨rfl, rfl⟩,
      fun (h : P = 0) _ => absurd h1 (by omega),
      fun (h : P = 0) _ => absurd h1 (by omega)⟩
  · rw [if_neg h1]
    by_cases h2 : R > 0
    · rw [if_pos h2]
      exact ⟨fun (h : P > 0) => absurd h h1,
        fun _ _ => ⟨rfl, rfl⟩,
        fun _ (h : R = 0) => absurd h2 (by omega)⟩
    · rw [if_neg h2]
      exact ⟨fun (h : P > 0) => absurd h h1,
        fun _ (h : R > 0) => absurd h h2,
        fun _ _ => ⟨rfl, rfl⟩⟩

/-- C8 witness: a one-day series where both windows coincide, so P = R > 0
and the percent is the rounded 0. -/
theorem C8_getDownloadTrend_classification_witness :
    (getDownloadTrend [100]).percent = round1
        (((((getDownloadTrend [100]).recent : Int)
              - ((getDownloadTrend [100]).sixMonthsAgo : Int) : Int) : Rat)
          / ((getDownloadTrend [100]).sixMonthsAgo : Rat) * 100)
      ∧ (getDownloadTrend [100]).trend
          = (if (getDownloadTrend [100]).percent > 10 then "growing"
             else if (getDownloadTrend [100]).percent < -10 then "declining"
             else "stable") :=
  (C8_getDownloadTrend_classification [100] (getDownloadTrend [100]) rfl).1
    (by decide)

/-- C4: when metadata acquisition fails entirely (`getPackageInfo` returned
null), `analyzePackage` still returns a full DependencyResult — score 0,
grade F, an error marker, maintenance at worst case (abandoned, infinite
days), zero downloads with stable trend, unknown size, clean security — so
the dependency is never dropped. -/
theorem C4_analyzePackage_not_found_worst_case :
    ∀ (name version : String) (env : FetchEnv),
      env.packageInfo = Option.none →
      analyzePackage name version env =
        { name := name, version := version
          latestVersion := Option.some "unknown"
          maintenance := Option.some
            ⟨Option.some "unknown", Option.some JsDays.infinity,
             Option.some "abandoned"⟩
          popularity := Option.some
            ⟨Option.some 0, Option.some "stable", Option.some 0⟩
          size := Option.some ⟨Option.some 0, Option.some "unknown"⟩
          security := Option.some ⟨Option.some 0, Option.some "none"⟩
          alternative := env.alternative name
          score := 0
          grade := "F"
          error := Option.some "Package not found or network error" } := by
  intro name version env h
  rcases env with ⟨pi, mr, pr, sr, secr, alt⟩
  simp only at h
  subst h
  rfl

/-- C4 witness: the worst-case record at a concrete failed lookup. -/
theorem C4_analyzePackage_not_found_worst_case_witness :
    analyzePackage "left-pad" "1.3.0" envNotFound =
      { name := "left-pad", version := "1.3.0"
        latestVersion := Option.some "unknown"
        maintenance := Option.some
          ⟨Option.some "unknown", Option.some JsDays.infinity,
           Option.some "abandoned"⟩
        popularity := Option.some
          ⟨Option.some 0, Option.some "stable", Option.some 0⟩
        size := Option.some ⟨Option.some 0, Option.some "unknown"⟩
        security := Option.some ⟨Option.some 0, Option.some "none"⟩
        alternative := Option.none
        score := 0
        grade := "F"
        error := Option.some "Package not found or network error" } :=
  C4_analyzePackage_not_found_worst_case "left-pad" "1.3.0" envNotFound rfl

/-- C5 counterexample: with the security extractor failing and the other
three extractors succeeding, the score produced by `analyzePackage` (100
here: the rejected security dimension falls back to the clean default
`{vulnerabilities: 0, severity: 'none'}`, worth the full 25 points) is NOT
the score of the same bundle with the security sub-record absent (75 here,
security contributing 0), refuting the claim as stated. -/
theorem C5_security_failure_counterexample :
    (analyzePackage "express" "4.21.0" envSecFail).score
      ≠ calculateScore
          ⟨Option.some mSecFail, Option.some pSecFail, Option.some szSecFail,
           Option.none⟩ := by
  decide

/-- C5 (amended): when the package metadata was found and the security
extractor fails while maintenance, popularity and size succeed, the score
produced by `analyzePackage` equals `calculateScore` on the same bundle with
the security sub-record replaced by the clean default
`{vulnerabilities: 0, severity: 'none'}` (contributing the full 25 security
points, not 0); the dependency is still present in the output under its own
name and version, with the grade derived from that score (hence non-F when
the dimensions warrant it). -/
theorem C5_security_failure_amended :
    ∀ (name version : String) (env : FetchEnv) (pi : PackageInfo)
      (m : Maintenance) (p : Popularity) (sz : Size) (msg : Option String),
      env.packageInfo = Option.some pi →
      env.maintenanceResult = Settled.fulfilled m →
      env.popularityResult = Settled.fulfilled p →
      env.sizeResult = Settled.fulfilled sz →
      env.securityResult = Settled.rejected msg →
      (analyzePackage name version env).score
          = calculateScore
              ⟨Option.some m, Option.some p, Option.some sz,
               Option.some ⟨Option.some 0, Option.some "none"⟩⟩
        ∧ (analyzePackage name version env).name = name
        ∧ (analyzePackage name version env).version = version
        ∧ (analyzePackage name version env).grade
            = calculateGrade
                ((calculateScore
                    ⟨Option.some m, Option.some p, Option.some sz,
                     Option.some ⟨Option.some 0, Option.some "none"⟩⟩ : Nat)
                  : Int) := by
  intro name version env pi m p sz msg h1 h2 h3 h4 h5
  rcases env with ⟨epi, emr, epr, esr, esecr, ealt⟩
  simp only at h1 h2 h3 h4 h5
  subst h1
  subst h2
  subst h3
  subst h4
  subst h5
  exact ⟨rfl, rfl, rfl, rfl⟩

/-- C5 amended witness: the concrete security-failure scenario, where the
score is that of the clean-security bundle and the grade is A (non-F). -/
theorem C5_security_failure_amended_witness :
    (analyzePackage "express" "4.21.0" envSecFail).score
        = calculateScore
            ⟨Option.some mSecFail, Option.some pSecFail, Option.some szSecFail,
             Option.some ⟨Option.some 0, Option.some "none"⟩⟩
      ∧ (analyzePackage "express" "4.21.0" envSecFail).grade = "A" :=
  ⟨(C5_security_failure_amended "express" "4.21.0" envSecFail
      ⟨Option.some ⟨Option.some "4.21.0"⟩⟩ mSecFail pSecFail szSecFail
      (Option.some "audit failed") rfl rfl rfl rfl rfl).1,
   by decide⟩

/-- C6: `analyzeProject` produces exactly one DependencyResult per declared
dependency, in the manifest's declaration order: the production result list
has the same length as the production manifest entries, the i-th result's
name and version equal the i-th declared pair, and likewise for dev
dependencies when they are included (the dev list is empty when not). -/
theorem C6_analyzeProject_order_preserved :
    ∀ (pkg : Manifest) (options : AnalyzeOptions) (env : ProjectEnv),
      ((analyzeProject pkg options env).dependencies.length
          = pkg.dependencies.length)
      ∧ (∀ i : Nat,
          ((analyzeProject pkg options env).dependencies.get? i).map
              DependencyResult.name
            = (pkg.dependencies.get? i).map Prod.fst
          ∧ ((analyzeProject pkg options env).dependencies.get? i).map
              DependencyResult.version
            = (pkg.dependencies.get? i).map Prod.snd)
      ∧ (options.includeDev = true →
          ((analyzeProject pkg options env).devDependencies.length
              = pkg.devDependencies.length)
          ∧ ∀ i : Nat,
              ((analyzeProject pkg options env).devDependencies.get? i).map
                  DependencyResult.name
                = (pkg.devDependencies.get? i).map Prod.fst
              ∧ ((analyzeProject pkg options env).devDependencies.get? i).map
                  DependencyResult.version
                = (pkg.devDependencies.get? i).map Prod.snd)
      ∧ (options.includeDev = false →
          (analyzeProject pkg options env).devDependencies = []) := by
  intro pkg options env
  refine ⟨by simp [analyzeProject], fun i => ⟨?_, ?_⟩,
    fun h => ⟨by simp [analyzeProject, h], fun i => ⟨?_, ?_⟩⟩,
    fun h => by simp [analyzeProject, h]⟩
  · simp only [analyzeProject, List.get?_map]
    exact entry_get_name env _
  · simp only [analyzeProject, List.get?_map]
    exact entry_get_version env _
  · simp only [analyzeProject, h, if_true, List.get?_map]
    exact entry_get_name env _
  · simp only [analyzeProject, h, if_true, List.get?_map]
    exact entry_get_version env _

/-- C6 witness: a two-dependency manifest (the second one's analysis promise
rejects) with one dev dependency, analyzed with dev included: lengths and
the name/version of each position survive, via the order theorem. -/
theorem C6_analyzeProject_order_preserved_witness :
    ((analyzeProject ⟨[("a", "1"), ("b", "2")], [("c", "3")]⟩ ⟨true⟩
          envProjWitness).dependencies.get? 1).map DependencyResult.name
        = Option.some "b"
      ∧ ((analyzeProject ⟨[("a", "1"), ("b", "2")], [("c", "3")]⟩ ⟨true⟩
            envProjWitness).devDependencies.get? 0).map
            DependencyResult.version
        = Option.some "3" :=
  ⟨((C6_analyzeProject_order_preserved
        ⟨[("a", "1"), ("b", "2")], [("c", "3")]⟩ ⟨true⟩ envProjWitness).2.1
      1).1.trans rfl,
   (((C6_analyzeProject_order_preserved
        ⟨[("a", "1"), ("b", "2")], [("c", "3")]⟩ ⟨true⟩
        envProjWitness).2.2.1 rfl).2 0).2.trans rfl⟩

end DepScope
